import Mathlib

/-!
Shallow embedding of the BMI323 inertial-sensor driver (Rust crate `bmi323`).

The driver talks to the sensor over I2C.  We model the bus as an oracle
`Bus : Nat → Nat → Nat` giving, for the `k`-th write-read transaction issued so
far, the byte the device places at each position of the receive buffer
(positions 0 and 1 are the two dummy bytes the device always sends first, see
`src/rw.rs`).  Plain writes and delays produce no data, so they only appear in
the recorded trace.  Every driver operation is embedded as a pure function from
a driver state `St` (transaction counter + trace of bus/delay actions) to an
updated state plus an `Except Err` result, mirroring the Rust control flow
statement by statement.  Bus transport failures (`Error::I2c`) are outside the
properties checked here; the oracle always answers, as a fault-free bus would.
-/

namespace Bmi323

/-- Bus oracle: `bus k j` is byte `j` of the device's response buffer for the
`k`-th read transaction (`j = 0, 1` are the two dummy framing bytes). -/
def Bus : Type := Nat → Nat → Nat

/-- Observable actions of the driver, in the order they are issued. -/
inductive Action
  /-- Single I2C write transaction to `addr` with the given bytes. -/
  | busWrite (addr : Nat) (data : List Nat)
  /-- I2C write-read transaction to `addr`: write `wdata`, then read `rlen` bytes. -/
  | busRead (addr : Nat) (wdata : List Nat) (rlen : Nat)
  /-- Microsecond delay (`DelayNs::delay_us`). -/
  | delayUs (n : Nat)
  /-- Millisecond delay (`DelayNs::delay_ms`). -/
  | delayMs (n : Nat)
deriving DecidableEq

/-- Driver-visible state: how many read transactions happened so far (this
indexes the bus oracle) and the trace of actions issued so far. -/
structure St where
  reads : Nat
  log : List Action
deriving DecidableEq

/-- Fresh state: no transactions yet. -/
def St.start : St := ⟨0, []⟩

/-- Driver error type (`Error<E>` in `src/lib.rs`); the `I2c` variant carries
the underlying bus error in Rust, which our fault-free oracle never produces. -/
inductive Err
  | i2c
  | invalidChipId (id : Nat)
  | invalidMode
  | init
  | data
deriving DecidableEq

/-- Primary I2C address of the sensor (`ADDR_I2C_PRIM` in `src/defs.rs`). -/
def ADDR_I2C_PRIM : Nat := 0x68

/-- Register addresses used by the operations under verification
(`Reg` in `src/defs.rs`). -/
def Reg.ChipId : Nat := 0x00
def Reg.Status : Nat := 0x02
def Reg.FeatureIo1 : Nat := 0x11
def Reg.FeatureIo2 : Nat := 0x12
def Reg.FeatureIoStatus : Nat := 0x14
def Reg.FifoFillLevel : Nat := 0x15
def Reg.FifoData : Nat := 0x16
def Reg.AccConf : Nat := 0x20
def Reg.GyrConf : Nat := 0x21
def Reg.FifoWatermark : Nat := 0x35
def Reg.FeatureCtrl : Nat := 0x40
def Reg.FeatureDataAddr : Nat := 0x41
def Reg.FeatureDataTx : Nat := 0x42
def Reg.FeatureDataStatus : Nat := 0x43
def Reg.Cmd : Nat := 0x7E

/-- Soft-reset settle constant (`SOFT_RESET_DELAY` in `src/defs.rs`); the Rust
comment says "us per datasheet" but `soft_reset` passes it to `delay_ms`. -/
def SOFT_RESET_DELAY : Nat := 1500

/-- Record a microsecond delay. -/
def delay_us (n : Nat) (s : St) : St := ⟨s.reads, s.log ++ [.delayUs n]⟩

/-- Record a millisecond delay. -/
def delay_ms (n : Nat) (s : St) : St := ⟨s.reads, s.log ++ [.delayMs n]⟩

/-- Transport write (`write_bytes` in `src/rw.rs`): one I2C write transaction
carrying the register address byte followed by the payload, then a fixed
20 microsecond settle delay.  The source `debug_assert!`s `data.len() <= 31`;
theorems carry that bound as a hypothesis. -/
def write_bytes (reg : Nat) (data : List Nat) (s : St) : St :=
  ⟨s.reads, s.log ++ [.busWrite ADDR_I2C_PRIM (reg :: data), .delayUs 20]⟩

/-- Transport write of a 16-bit value in little-endian order
(`write_u16` in `src/rw.rs`). -/
def write_u16 (reg : Nat) (v : Nat) (s : St) : St :=
  write_bytes reg [v % 256, v / 256 % 256] s

/-- Transport read (`read_bytes` in `src/rw.rs`): one write-read transaction
that sends the register address and requests `len + 2` bytes (the device sends
two dummy bytes first); the two leading bytes are discarded and the remaining
`len` bytes are returned.  The source `debug_assert!`s `buf.len() <= 30`;
theorems carry that bound as a hypothesis. -/
def read_bytes (bus : Bus) (reg : Nat) (len : Nat) (s : St) : St × List Nat :=
  (⟨s.reads + 1, s.log ++ [.busRead ADDR_I2C_PRIM [reg] (len + 2)]⟩,
   (List.range len).map fun j => bus s.reads (j + 2))

/-- Chip-id accessor (`get_id` in `src/lib.rs`): reads one byte from `CHIP_ID`
and returns it unchanged (the `ChipId` bitfield is the whole byte); the byte is
not compared against the expected id 0x43. -/
def get_id (bus : Bus) (s : St) : St × Except Err Nat :=
  let r := read_bytes bus Reg.ChipId 1 s
  (r.1, .ok (r.2.headD 0))

/-- Soft reset (`soft_reset` in `src/lib.rs`): write command `0xDEAF` to `CMD`
via `write_u16`, then `delay_ms(SOFT_RESET_DELAY as u32)`. -/
def soft_reset (s : St) : St :=
  delay_ms SOFT_RESET_DELAY (write_u16 Reg.Cmd 0xDEAF s)

/-- Output data rate codes (`OutputDataRate` in `src/types.rs`). -/
inductive OutputDataRate
  | hz0_78 | hz1_56 | hz3_12 | hz6_25 | hz12_5 | hz25 | hz50
  | hz100 | hz200 | hz400 | hz800 | hz1600 | hz3200 | hz6400
deriving DecidableEq

/-- Raw code of an output data rate (`From<OutputDataRate> for u8`). -/
def OutputDataRate.toCode : OutputDataRate → Nat
  | .hz0_78 => 0x01 | .hz1_56 => 0x02 | .hz3_12 => 0x03 | .hz6_25 => 0x04
  | .hz12_5 => 0x05 | .hz25 => 0x06 | .hz50 => 0x07 | .hz100 => 0x08
  | .hz200 => 0x09 | .hz400 => 0x0A | .hz800 => 0x0B | .hz1600 => 0x0C
  | .hz3200 => 0x0D | .hz6400 => 0x0E

/-- Fallible decode of an output data rate (`TryFrom<u8> for OutputDataRate`). -/
def OutputDataRate.tryFrom : Nat → Option OutputDataRate
  | 0x01 => some .hz0_78 | 0x02 => some .hz1_56 | 0x03 => some .hz3_12
  | 0x04 => some .hz6_25 | 0x05 => some .hz12_5 | 0x06 => some .hz25
  | 0x07 => some .hz50 | 0x08 => some .hz100 | 0x09 => some .hz200
  | 0x0A => some .hz400 | 0x0B => some .hz800 | 0x0C => some .hz1600
  | 0x0D => some .hz3200 | 0x0E => some .hz6400 | _ => none

/-- Digital low-pass bandwidth (`Bandwidth` in `src/types.rs`). -/
inductive Bandwidth
  | odrHalf | odrQuarter
deriving DecidableEq

/-- Raw code of a bandwidth selection. -/
def Bandwidth.toCode : Bandwidth → Nat
  | .odrHalf => 0x00 | .odrQuarter => 0x01

/-- Fallible decode of a bandwidth selection. -/
def Bandwidth.tryFrom : Nat → Option Bandwidth
  | 0x00 => some .odrHalf | 0x01 => some .odrQuarter | _ => none

/-- Averaging selection (`AverageNum` in `src/types.rs`). -/
inductive AverageNum
  | no | avg2 | avg4 | avg8 | avg16 | avg32 | avg64
deriving DecidableEq

/-- Raw code of an averaging selection. -/
def AverageNum.toCode : AverageNum → Nat
  | .no => 0x00 | .avg2 => 0x01 | .avg4 => 0x02 | .avg8 => 0x03
  | .avg16 => 0x04 | .avg32 => 0x05 | .avg64 => 0x06

/-- Fallible decode of an averaging selection. -/
def AverageNum.tryFrom : Nat → Option AverageNum
  | 0x00 => some .no | 0x01 => some .avg2 | 0x02 => some .avg4
  | 0x03 => some .avg8 | 0x04 => some .avg16 | 0x05 => some .avg32
  | 0x06 => some .avg64 | _ => none

/-- Accelerometer range (`AccelRange` in `src/accel.rs`). -/
inductive AccelRange
  | g2 | g4 | g8 | g16
deriving DecidableEq

/-- Raw code of an accelerometer range. -/
def AccelRange.toCode : AccelRange → Nat
  | .g2 => 0x00 | .g4 => 0x01 | .g8 => 0x02 | .g16 => 0x03

/-- Fallible decode of an accelerometer range. -/
def AccelRange.tryFrom : Nat → Option AccelRange
  | 0x00 => some .g2 | 0x01 => some .g4 | 0x02 => some .g8
  | 0x03 => some .g16 | _ => none

/-- Accelerometer power mode (`AccelPowerMode` in `src/accel.rs`). -/
inductive AccelPowerMode
  | disable | lowPower | normal | highPerf
deriving DecidableEq

/-- Raw code of an accelerometer power mode. -/
def AccelPowerMode.toCode : AccelPowerMode → Nat
  | .disable => 0x0 | .lowPower => 0x3 | .normal => 0x4 | .highPerf => 0x7

/-- Fallible decode of an accelerometer power mode. -/
def AccelPowerMode.tryFrom : Nat → Option AccelPowerMode
  | 0x0 => some .disable | 0x3 => some .lowPower | 0x4 => some .normal
  | 0x7 => some .highPerf | _ => none

/-- Gyroscope range (`GyroRange` in `src/gyro.rs`). -/
inductive GyroRange
  | dps125 | dps250 | dps500 | dps1000 | dps2000
deriving DecidableEq

/-- Raw code of a gyroscope range. -/
def GyroRange.toCode : GyroRange → Nat
  | .dps125 => 0 | .dps250 => 1 | .dps500 => 2 | .dps1000 => 3 | .dps2000 => 4

/-- Fallible decode of a gyroscope range. -/
def GyroRange.tryFrom : Nat → Option GyroRange
  | 0 => some .dps125 | 1 => some .dps250 | 2 => some .dps500
  | 3 => some .dps1000 | 4 => some .dps2000 | _ => none

/-- Gyroscope power mode (`GyroPowerMode` in `src/gyro.rs`). -/
inductive GyroPowerMode
  | disable | suspend | lowPower | normal | highPerf
deriving DecidableEq

/-- Raw code of a gyroscope power mode. -/
def GyroPowerMode.toCode : GyroPowerMode → Nat
  | .disable => 0x00 | .suspend => 0x01 | .lowPower => 0x03
  | .normal => 0x04 | .highPerf => 0x07

/-- Fallible decode of a gyroscope power mode. -/
def GyroPowerMode.tryFrom : Nat → Option GyroPowerMode
  | 0x00 => some .disable | 0x01 => some .suspend | 0x03 => some .lowPower
  | 0x04 => some .normal | 0x07 => some .highPerf | _ => none

/-- Accelerometer configuration register value (`AccelConfig` in
`src/accel.rs`, a two-byte `packbits` bitfield: `odr` bits 0-3, `range` bits
4-6, `bw` bit 7, `avg` bits 8-10, one skip bit 11, `mode` bits 12-14, top bit
unused). -/
structure AccelConfig where
  odr : OutputDataRate
  range : AccelRange
  bw : Bandwidth
  avg : AverageNum
  mode : AccelPowerMode
deriving DecidableEq

/-- Gyroscope configuration register value (`GyroConfig` in `src/gyro.rs`,
same bit layout as `AccelConfig` with gyro enums). -/
structure GyroConfig where
  odr : OutputDataRate
  range : GyroRange
  bw : Bandwidth
  avg : AverageNum
  mode : GyroPowerMode
deriving DecidableEq

/-- Modelled from the spec: the `packbits::pack` derive macro that generates
`TryInto<[u8; N]>` / `TryFrom<[u8; N]>` for the bitfield structs is an external
proc-macro crate not present under `src/`; per spec section 4.1 fields are
packed little-endian at a running bit cursor, skip bits encode as zero and are
ignored on decode, and enumerated fields map through their raw codes.  Encoded
16-bit word of an `AccelConfig` under that layout. -/
def encodeAccelConfigWord (c : AccelConfig) : Nat :=
  c.odr.toCode + 16 * c.range.toCode + 128 * c.bw.toCode
    + 256 * c.avg.toCode + 4096 * c.mode.toCode

/-- Little-endian two-byte encoding of an `AccelConfig` (the byte array the
driver writes to `ACC_CONF`). -/
def encodeAccelConfig (c : AccelConfig) : List Nat :=
  [encodeAccelConfigWord c % 256, encodeAccelConfigWord c / 256 % 256]

/-- Fallible decode of an `AccelConfig` from its two register bytes; an
unmapped enum code makes the whole decode fail, as the generated
`TryFrom<[u8; 2]>` does. -/
def decodeAccelConfig (b : List Nat) : Option AccelConfig :=
  let w := b.headD 0 % 256 + 256 * (b.getD 1 0 % 256)
  match OutputDataRate.tryFrom (w % 16), AccelRange.tryFrom (w / 16 % 8),
      Bandwidth.tryFrom (w / 128 % 2), AverageNum.tryFrom (w / 256 % 8),
      AccelPowerMode.tryFrom (w / 4096 % 8) with
  | some odr, some range, some bw, some avg, some mode =>
      some ⟨odr, range, bw, avg, mode⟩
  | _, _, _, _, _ => none

/-- Encoded 16-bit word of a `GyroConfig` (same layout as `AccelConfig`). -/
def encodeGyroConfigWord (c : GyroConfig) : Nat :=
  c.odr.toCode + 16 * c.range.toCode + 128 * c.bw.toCode
    + 256 * c.avg.toCode + 4096 * c.mode.toCode

/-- Little-endian two-byte encoding of a `GyroConfig`. -/
def encodeGyroConfig (c : GyroConfig) : List Nat :=
  [encodeGyroConfigWord c % 256, encodeGyroConfigWord c / 256 % 256]

/-- Fallible decode of a `GyroConfig` from its two register bytes. -/
def decodeGyroConfig (b : List Nat) : Option GyroConfig :=
  let w := b.headD 0 % 256 + 256 * (b.getD 1 0 % 256)
  match OutputDataRate.tryFrom (w % 16), GyroRange.tryFrom (w / 16 % 8),
      Bandwidth.tryFrom (w / 128 % 2), AverageNum.tryFrom (w / 256 % 8),
      GyroPowerMode.tryFrom (w / 4096 % 8) with
  | some odr, some range, some bw, some avg, some mode =>
      some ⟨odr, range, bw, avg, mode⟩
  | _, _, _, _, _ => none

/-- Sensor selector for data-ready checks (`Sensor` in `src/types.rs`). -/
inductive Sensor
  | accel | gyro | temp
deriving DecidableEq

/-- Bit index of a sensor's data-ready flag in the one-byte `STATUS` register
(`Status` bitfield in `src/lib.rs`: five skip bits, then `drdy_temp`,
`drdy_gyr`, `drdy_acc`). -/
def Sensor.drdyBit : Sensor → Nat
  | .accel => 7 | .gyro => 6 | .temp => 5

/-- Data-ready check (`is_ready` in `src/lib.rs`): read the one-byte `STATUS`
register and test the selected sensor's flag. -/
def is_ready (bus : Bus) (sensor : Sensor) (s : St) : St × Bool :=
  let r := read_bytes bus Reg.Status 1 s
  (r.1, (r.2.headD 0).testBit sensor.drdyBit)

/-- Loop body of `wait_for` in `src/lib.rs`:
`while !is_ready { if retries > 20 return Err(Data); delay_ms(2); retries += 1 }`.
The counter `retries` starts at 0 and the loop gives up once `retries > 20`,
so at most 22 status reads happen; `fuel` only makes the recursion structural
and never runs out when it starts at `22 - retries`. -/
def wait_for_go (bus : Bus) (sensor : Sensor) : Nat → Nat → St → St × Except Err Unit
  | _, 0, s => (s, .error .data)
  | retries, fuel + 1, s =>
    let r := is_ready bus sensor s
    if r.2 then (r.1, .ok ())
    else if retries > 20 then (r.1, .error .data)
    else wait_for_go bus sensor (retries + 1) fuel (delay_ms 2 r.1)

/-- Readiness poll for accel/gyro/temp (`wait_for` in `src/lib.rs`). -/
def wait_for (bus : Bus) (sensor : Sensor) (s : St) : St × Except Err Unit :=
  wait_for_go bus sensor 0 22 s

/-- Accelerometer configuration write (`set_accel_conf` in `src/accel.rs`):
encode and write the config to `ACC_CONF`, then poll the accel data-ready bit. -/
def set_accel_conf (bus : Bus) (cfg : AccelConfig) (s : St) : St × Except Err Unit :=
  wait_for bus .accel (write_bytes Reg.AccConf (encodeAccelConfig cfg) s)

/-- Gyroscope configuration write (`set_gyro_conf` in `src/gyro.rs`). -/
def set_gyro_conf (bus : Bus) (cfg : GyroConfig) (s : St) : St × Except Err Unit :=
  wait_for bus .gyro (write_bytes Reg.GyrConf (encodeGyroConfig cfg) s)

/-- Two-byte little-endian encoding of the `FifoWatermark` bitfield
(10-bit `watermark` field, upper six bits skip); only called with a value
already clamped below 1024, matching the generated packer. -/
def encodeFifoWatermark (w : Nat) : List Nat := [w % 256, w / 256 % 256]

/-- Watermark field read back from the two `FIFO_WATERMARK` register bytes
(bits 0-9 of the little-endian word). -/
def decodeFifoWatermark (b : List Nat) : Nat :=
  (b.headD 0 % 256 + 256 * (b.getD 1 0 % 256)) % 1024

/-- FIFO watermark write (`set_fifo_watermark` in `src/fifo.rs`): clamp the
argument to `(1 << 10) - 1 = 1023` with `core::cmp::min`, encode, and write. -/
def set_fifo_watermark (w : Nat) (s : St) : St × Except Err Unit :=
  (write_bytes Reg.FifoWatermark (encodeFifoWatermark (min w 1023)) s, .ok ())

/-- FIFO fill level read (`get_fifo_fill_level` in `src/fifo.rs`): two bytes
from `FIFO_FILL_LEVEL`, of which the low 11 bits are the level in words. -/
def get_fifo_fill_level (bus : Bus) (s : St) : St × Nat :=
  let r := read_bytes bus Reg.FifoFillLevel 2 s
  (r.1, (r.2.headD 0 % 256 + 256 * (r.2.getD 1 0 % 256)) % 2048)

/-- FIFO data read (`read_fifo_bytes` in `src/fifo.rs`): empty buffers return
0 at once; otherwise the fill level bounds the read to
`min(out.len(), fill_words * 2)` bytes, a zero bound returns 0 without touching
`FIFO_DATA`, and otherwise exactly that many bytes are read from `FIFO_DATA`
in a single `read_bytes` transaction.  That transport call asserts a 30-byte
payload bound (32-byte scratch buffer less the two dummy bytes) and panics
beyond it, so — as for the transport theorems — statements about the clean
path carry `min(out.len(), fill_words * 2) ≤ 30` as a hypothesis. -/
def read_fifo_bytes (bus : Bus) (outLen : Nat) (s : St) : St × Except Err Nat :=
  if outLen = 0 then (s, .ok 0)
  else
    let r := get_fifo_fill_level bus s
    let available := r.2 * 2
    let n := min outLen available
    if n = 0 then (r.1, .ok 0)
    else ((read_bytes bus Reg.FifoData n r.1).1, .ok n)

/-- Loop body of `wait_feature_data_ready` in `src/feature/mod.rs`: read
`FEATURE_DATA_STATUS`; a set `out_of_bound_err` bit (bit 0) fails at once with
`Error::Data`; a set `data_tx_ready` bit (bit 1) succeeds; otherwise give up
with `Error::Data` once `tries > 100`, else delay 2 ms and retry.  At most 102
status reads happen; `fuel` starts at `102 - tries` and never runs out. -/
def wait_feature_go (bus : Bus) : Nat → Nat → St → St × Except Err Unit
  | _, 0, s => (s, .error .data)
  | tries, fuel + 1, s =>
    let r := read_bytes bus Reg.FeatureDataStatus 2 s
    let b0 := r.2.headD 0
    if b0.testBit 0 then (r.1, .error .data)
    else if b0.testBit 1 then (r.1, .ok ())
    else if tries > 100 then (r.1, .error .data)
    else wait_feature_go bus (tries + 1) fuel (delay_ms 2 r.1)

/-- Feature-data readiness poll (`wait_feature_data_ready` in
`src/feature/mod.rs`). -/
def wait_feature_data_ready (bus : Bus) (s : St) : St × Except Err Unit :=
  wait_feature_go bus 0 102 s

/-- Feature-memory write (`write_feature_bytes` in `src/feature/mod.rs`):
wait for the data interface, write the feature address plus a reserved zero
byte to `FEATURE_DATA_ADDR`, then stream the payload through
`FEATURE_DATA_TX`. -/
def write_feature_bytes (bus : Bus) (addr : Nat) (v : List Nat) (s : St) :
    St × Except Err Unit :=
  match wait_feature_data_ready bus s with
  | (s1, .error e) => (s1, .error e)
  | (s1, .ok _) =>
    (write_bytes Reg.FeatureDataTx v (write_bytes Reg.FeatureDataAddr [addr, 0] s1),
     .ok ())

/-- Feature-memory read (`read_feature_bytes` in `src/feature/mod.rs`): odd
lengths fail with `Error::Data` before any bus traffic; otherwise wait for the
data interface, write the address pointer, and read the payload from
`FEATURE_DATA_TX`. -/
def read_feature_bytes (bus : Bus) (addr : Nat) (outLen : Nat) (s : St) :
    St × Except Err (List Nat) :=
  if outLen % 2 ≠ 0 then (s, .error .data)
  else
    match wait_feature_data_ready bus s with
    | (s1, .error e) => (s1, .error e)
    | (s1, .ok _) =>
      let r := read_bytes bus Reg.FeatureDataTx outLen
        (write_bytes Reg.FeatureDataAddr [addr, 0] s1)
      (r.1, .ok r.2)

/-- Feature-engine status codes (`FeatureIoError` in `src/feature/mod.rs`,
bits 3:0 of `FEATURE_IO1`); raw codes 0x2, 0x4 and 0x7 have no variant. -/
inductive FeatureIoError
  | inactive | activated | configStringWrong | noError
  | axisMapCmdNotProcessed | i3cTcSyncError | ongoingScOrStAborted
  | scCmdIgnored | stCmdIgnored | scCmdNotProcessed
  | autoModeIllegalConfig | tcSyncEnableWhileSt | illegalConfigWhileTcSync
deriving DecidableEq

/-- Fallible decode of a `FEATURE_IO1.error_status` nibble
(`TryFrom<u8> for FeatureIoError`). -/
def FeatureIoError.tryFrom : Nat → Option FeatureIoError
  | 0x0 => some .inactive | 0x1 => some .activated
  | 0x3 => some .configStringWrong | 0x5 => some .noError
  | 0x6 => some .axisMapCmdNotProcessed | 0x8 => some .i3cTcSyncError
  | 0x9 => some .ongoingScOrStAborted | 0xA => some .scCmdIgnored
  | 0xB => some .stCmdIgnored | 0xC => some .scCmdNotProcessed
  | 0xD => some .autoModeIllegalConfig | 0xE => some .tcSyncEnableWhileSt
  | 0xF => some .illegalConfigWhileTcSync | _ => none

/-- Loop body of `enable_feature_engine` in `src/feature/mod.rs`: delay
100000 microseconds, read `FEATURE_IO1`, fail with `Error::Data` if its
`error_status` nibble decodes to no variant (the generated `TryFrom` is mapped
to `Error::Data` by `read`), stop with success on `Activated`, and otherwise
increment `tries` and give up with `Error::Init` once `tries > 10`.  At most 11
status reads happen; `fuel` starts at `11 - tries` and never runs out. -/
def enable_engine_go (bus : Bus) : Nat → Nat → St → St × Except Err Unit
  | _, 0, s => (s, .error .init)
  | tries, fuel + 1, s =>
    let r := read_bytes bus Reg.FeatureIo1 2 (delay_us 100000 s)
    match FeatureIoError.tryFrom (r.2.headD 0 % 16) with
    | none => (r.1, .error .data)
    | some st =>
      if st = .activated then (r.1, .ok ())
      else if tries + 1 > 10 then (r.1, .error .init)
      else enable_engine_go bus (tries + 1) fuel r.1

/-- Feature-engine activation (`enable_feature_engine` in
`src/feature/mod.rs`): program `FEATURE_IO2` with the init value, apply it via
`FEATURE_IO_STATUS`, set `FEATURE_CTRL.engine_en`, then poll `FEATURE_IO1`
until its `error_status` reads `Activated`. -/
def enable_feature_engine (bus : Bus) (s : St) : St × Except Err Unit :=
  enable_engine_go bus 0 11
    (write_bytes Reg.FeatureCtrl [1, 0]
      (write_bytes Reg.FeatureIoStatus [1, 0]
        (write_bytes Reg.FeatureIo2 [0x2c, 0x01] s)))

/-- Floor of the base-2 logarithm of `|q|` (meaningful for `q ≠ 0`): the
unique `e` with `2 ^ e ≤ |q| < 2 ^ (e + 1)`, i.e. the binary exponent of the
leading significand bit. -/
def qExp (q : ℚ) : ℤ := Int.log 2 |q|

/-- Idealized IEEE-754 binary32 rounding of an exact rational: keep a 24-bit
significand, rounding to the nearest representable value.  Rust's `f32`
arithmetic in `AccelRange::multiplier` / `GyroRange::multiplier` and in the
`get_*_data` scaling performs exactly one such rounding per operation on exact
inputs.  Ties round away from the even significand here (Mathlib's `round`),
but none of the computations below hits a tie, and the inputs stay far inside
the normal range, so neither subnormals nor overflow need modelling. -/
def f32round (q : ℚ) : ℚ :=
  if q = 0 then 0
  else round (q / (2 : ℚ) ^ (qExp q - 23)) * (2 : ℚ) ^ (qExp q - 23)

/-- Scale factor from raw accelerometer counts to g
(`AccelRange::multiplier` in `src/accel.rs`: `1. / 16384.` and friends,
an `f32` division of exactly representable operands). -/
def AccelRange.multiplier : AccelRange → ℚ
  | .g2 => f32round (1 / 16384)
  | .g4 => f32round (1 / 8192)
  | .g8 => f32round (1 / 4096)
  | .g16 => f32round (1 / 2048)

/-- Full-scale value in degrees per second (`GyroRange::dps` in `src/gyro.rs`). -/
def GyroRange.dps : GyroRange → ℚ
  | .dps125 => 125 | .dps250 => 250 | .dps500 => 500
  | .dps1000 => 1000 | .dps2000 => 2000

/-- Scale factor from raw gyroscope counts to degrees per second
(`GyroRange::multiplier` in `src/gyro.rs`: `self.dps() / f32::from(i16::MAX)`). -/
def GyroRange.multiplier (r : GyroRange) : ℚ := f32round (r.dps / 32767)

/-- Scaled accelerometer axis reading (`get_accel_data` in `src/accel.rs`:
`raw as f32 * range.multiplier()`; the `i16 → f32` conversion is exact, the
multiplication rounds once). -/
def accelScaled (r : AccelRange) (raw : ℤ) : ℚ :=
  f32round ((raw : ℚ) * r.multiplier)

/-- Scaled gyroscope axis reading (`get_gyro_data` in `src/gyro.rs`). -/
def gyroScaled (r : GyroRange) (raw : ℤ) : ℚ :=
  f32round ((raw : ℚ) * r.multiplier)

/-- Trace fragment produced by a failing post-check poll loop (`wait_for`,
`wait_feature_data_ready`): `n` status reads of register `regAddr` (requesting
`rlen` bytes each) separated by `n - 1` delays of `delayn` milliseconds. -/
def pollLog (regAddr rlen delayn : Nat) : Nat → List Action
  | 0 => []
  | 1 => [.busRead ADDR_I2C_PRIM [regAddr] rlen]
  | n + 2 => .busRead ADDR_I2C_PRIM [regAddr] rlen :: .delayMs delayn ::
      pollLog regAddr rlen delayn (n + 1)

/-- Trace fragment produced by a failing feature-engine activation loop: `n`
iterations of a 100000 microsecond delay followed by a `FEATURE_IO1` read. -/
def enginePollLog : Nat → List Action
  | 0 => []
  | n + 1 => .delayUs 100000 :: .busRead ADDR_I2C_PRIM [Reg.FeatureIo1] 4 ::
      enginePollLog n

/-- Simulated bus whose every response byte is zero: status registers never
report ready, never report an out-of-bounds error, and `FEATURE_IO1` decodes
to the valid non-activated code `Inactive`. -/
def zeroBus : Bus := fun _ _ => 0

/-- Simulated bus whose `FEATURE_DATA_STATUS` low byte has bit 0 set: the
device reports a prior out-of-bounds feature-memory access. -/
def oobBus : Bus := fun _ _ => 1

/-- Simulated bus whose `FEATURE_IO1` low byte reads 0x2, a raw
`error_status` code with no `FeatureIoError` variant. -/
def badCodeBus : Bus := fun _ _ => 0x2

/-- Simulated bus reporting a FIFO fill level of 10 words (low fill byte 10,
every other byte zero). -/
def fifoTestBus : Bus := fun _ j => if j = 2 then 10 else 0

/-- Default accelerometer configuration (`Default for AccelConfig` in
`src/accel.rs`). -/
def accelDefault : AccelConfig := ⟨.hz1600, .g2, .odrHalf, .no, .normal⟩

/-- Default gyroscope configuration (`Default for GyroConfig` in
`src/gyro.rs`). -/
def gyroDefault : GyroConfig := ⟨.hz100, .dps2000, .odrQuarter, .no, .normal⟩

theorem OutputDataRate.tryFrom_toCode_odr (x : OutputDataRate) :
    OutputDataRate.tryFrom x.toCode = some x := by cases x <;> rfl

theorem OutputDataRate.toCode_lt_odr (x : OutputDataRate) : x.toCode < 16 := by
  cases x <;> decide

theorem AccelRange.tryFrom_toCode_accelRange (x : AccelRange) :
    AccelRange.tryFrom x.toCode = some x := by cases x <;> rfl

theorem AccelRange.toCode_lt_accelRange (x : AccelRange) : x.toCode < 8 := by
  cases x <;> decide

theorem Bandwidth.tryFrom_toCode_bw (x : Bandwidth) :
    Bandwidth.tryFrom x.toCode = some x := by cases x <;> rfl

theorem Bandwidth.toCode_lt_bw (x : Bandwidth) : x.toCode < 2 := by
  cases x <;> decide

theorem AverageNum.tryFrom_toCode_avg (x : AverageNum) :
    AverageNum.tryFrom x.toCode = some x := by cases x <;> rfl

theorem AverageNum.toCode_lt_avg (x : AverageNum) : x.toCode < 8 := by
  cases x <;> decide

theorem AccelPowerMode.tryFrom_toCode_accelMode (x : AccelPowerMode) :
    AccelPowerMode.tryFrom x.toCode = some x := by cases x <;> rfl

theorem AccelPowerMode.toCode_lt_accelMode (x : AccelPowerMode) : x.toCode < 8 := by
  cases x <;> decide

theorem GyroRange.tryFrom_toCode_gyroRange (x : GyroRange) :
    GyroRange.tryFrom x.toCode = some x := by cases x <;> rfl

theorem GyroRange.toCode_lt_gyroRange (x : GyroRange) : x.toCode < 8 := by
  cases x <;> decide

theorem GyroPowerMode.tryFrom_toCode_gyroMode (x : GyroPowerMode) :
    GyroPowerMode.tryFrom x.toCode = some x := by cases x <;> rfl

theorem GyroPowerMode.toCode_lt_gyroMode (x : GyroPowerMode) : x.toCode < 8 := by
  cases x <;> decide

theorem accel_roundtrip (c : AccelConfig) :
    decodeAccelConfig (encodeAccelConfig c) = some c := by
  obtain ⟨odr, range, bw, avg, mode⟩ := c
  have ha := OutputDataRate.toCode_lt_odr odr
  have hr := AccelRange.toCode_lt_accelRange range
  have hb := Bandwidth.toCode_lt_bw bw
  have hg := AverageNum.toCode_lt_avg avg
  have hm := AccelPowerMode.toCode_lt_accelMode mode
  simp only [encodeAccelConfig, decodeAccelConfig, encodeAccelConfigWord,
    List.headD_cons, List.getD_cons_succ, List.getD_cons_zero]
  set a := odr.toCode with hA
  set r := range.toCode with hR
  set b := bw.toCode with hB
  set g := avg.toCode with hG
  set m := mode.toCode with hM
  have e1 : (a + 16 * r + 128 * b + 256 * g + 4096 * m) % 256 % 256 +
      256 * ((a + 16 * r + 128 * b + 256 * g + 4096 * m) / 256 % 256 % 256) =
      a + 16 * r + 128 * b + 256 * g + 4096 * m := by omega
  rw [e1]
  have p1 : (a + 16 * r + 128 * b + 256 * g + 4096 * m) % 16 = a := by omega
  have p2 : (a + 16 * r + 128 * b + 256 * g + 4096 * m) / 16 % 8 = r := by omega
  have p3 : (a + 16 * r + 128 * b + 256 * g + 4096 * m) / 128 % 2 = b := by omega
  have p4 : (a + 16 * r + 128 * b + 256 * g + 4096 * m) / 256 % 8 = g := by omega
  have p5 : (a + 16 * r + 128 * b + 256 * g + 4096 * m) / 4096 % 8 = m := by omega
  rw [p1, p2, p3, p4, p5, hA, hR, hB, hG, hM,
    OutputDataRate.tryFrom_toCode_odr, AccelRange.tryFrom_toCode_accelRange,
    Bandwidth.tryFrom_toCode_bw, AverageNum.tryFrom_toCode_avg,
    AccelPowerMode.tryFrom_toCode_accelMode]

theorem gyro_roundtrip (c : GyroConfig) :
    decodeGyroConfig (encodeGyroConfig c) = some c := by
  obtain ⟨odr, range, bw, avg, mode⟩ := c
  have ha := OutputDataRate.toCode_lt_odr odr
  have hr := GyroRange.toCode_lt_gyroRange range
  have hb := Bandwidth.toCode_lt_bw bw
  have hg := AverageNum.toCode_lt_avg avg
  have hm := GyroPowerMode.toCode_lt_gyroMode mode
  simp only [encodeGyroConfig, decodeGyroConfig, encodeGyroConfigWord,
    List.headD_cons, List.getD_cons_succ, List.getD_cons_zero]
  set a := odr.toCode with hA
  set r := range.toCode with hR
  set b := bw.toCode with hB
  set g := avg.toCode with hG
  set m := mode.toCode with hM
  have e1 : (a + 16 * r + 128 * b + 256 * g + 4096 * m) % 256 % 256 +
      256 * ((a + 16 * r + 128 * b + 256 * g + 4096 * m) / 256 % 256 % 256) =
      a + 16 * r + 128 * b + 256 * g + 4096 * m := by omega
  rw [e1]
  have p1 : (a + 16 * r + 128 * b + 256 * g + 4096 * m) % 16 = a := by omega
  have p2 : (a + 16 * r + 128 * b + 256 * g + 4096 * m) / 16 % 8 = r := by omega
  have p3 : (a + 16 * r + 128 * b + 256 * g + 4096 * m) / 128 % 2 = b := by omega
  have p4 : (a + 16 * r + 128 * b + 256 * g + 4096 * m) / 256 % 8 = g := by omega
  have p5 : (a + 16 * r + 128 * b + 256 * g + 4096 * m) / 4096 % 8 = m := by omega
  rw [p1, p2, p3, p4, p5, hA, hR, hB, hG, hM,
    OutputDataRate.tryFrom_toCode_odr, GyroRange.tryFrom_toCode_gyroRange,
    Bandwidth.tryFrom_toCode_bw, AverageNum.tryFrom_toCode_avg,
    GyroPowerMode.tryFrom_toCode_gyroMode]

/-- C1: for every typed configuration value whose fields are within their
declared bit widths and whose enumerated sub-fields are valid codes — which
the shallow embedding enforces by construction, since `AccelConfig` and
`GyroConfig` fields range over exactly the valid enum variants — decoding the
byte array produced by encoding the value yields exactly the value. -/
theorem claim_c1_roundtrip :
    (∀ c : AccelConfig, decodeAccelConfig (encodeAccelConfig c) = some c) ∧
    (∀ c : GyroConfig, decodeGyroConfig (encodeGyroConfig c) = some c) :=
  ⟨accel_roundtrip, gyro_roundtrip⟩

/-- C5: for every watermark argument, `set_fifo_watermark` succeeds (never an
error), writes one `FIFO_WATERMARK` transaction whose payload encodes
`min w 1023`, and the 10-bit watermark field read back from that payload is
`min w 1023` — clamped, not wrapped modulo 1024. -/
theorem claim_c5_watermark_clamped (w : Nat) (s : St) :
    (set_fifo_watermark w s).2 = .ok () ∧
    (set_fifo_watermark w s).1.log = s.log ++
      [.busWrite ADDR_I2C_PRIM
        (Reg.FifoWatermark :: encodeFifoWatermark (min w 1023)), .delayUs 20] ∧
    decodeFifoWatermark (encodeFifoWatermark (min w 1023)) = min w 1023 := by
  refine ⟨rfl, by simp [set_fifo_watermark, write_bytes], ?_⟩
  have h : min w 1023 ≤ 1023 := Nat.min_le_right w 1023
  simp only [encodeFifoWatermark, decodeFifoWatermark, List.headD_cons,
    List.getD_cons_succ, List.getD_cons_zero]
  omega

/-- C7: `get_id` returns `Ok` of whatever payload byte the bus supplies for
the chip-id register (byte at position 2 of the response, after the two dummy
bytes), with no chip-id validation; in particular a device reporting 0x43
yields `Ok 0x43` and any other byte is returned unchanged. -/
theorem claim_c7_get_id (bus : Bus) (s : St) :
    (get_id bus s).2 = .ok (bus s.reads 2) := by
  simp [get_id, read_bytes, List.range_succ]

/-- C10: `soft_reset` issues exactly one write transaction carrying the
little-endian command 0xDEAF (bytes 0xAF, 0xDE) to register 0x7E, the
transport's fixed 20 microsecond settle, and then a delay of
`SOFT_RESET_DELAY = 1500` issued through the millisecond delay — 1500 ms,
one thousand times the 1500 microseconds the constant's datasheet comment
denotes. -/
theorem claim_c10_soft_reset (s : St) :
    soft_reset s = ⟨s.reads, s.log ++
      [.busWrite ADDR_I2C_PRIM [0x7E, 0xAF, 0xDE], .delayUs 20,
       .delayMs SOFT_RESET_DELAY]⟩ ∧
    SOFT_RESET_DELAY = 1500 := by
  constructor
  · simp [soft_reset, delay_ms, write_u16, write_bytes, Reg.Cmd, SOFT_RESET_DELAY]
  · rfl

theorem drop_two_range_map (f : Nat → Nat) (len : Nat) :
    ((List.range (len + 2)).map f).drop 2 =
      (List.range len).map fun j => f (j + 2) := by
  rw [show len + 2 = len + 1 + 1 from rfl, List.range_succ_eq_map,
    List.range_succ_eq_map]
  simp only [List.map_cons, List.map_map, List.drop_succ_cons, List.drop_zero]
  exact List.map_congr_left fun j _ => rfl

/-- C3: a register read of `N` payload bytes issues one write-read transaction
requesting `N + 2` bytes, and the returned payload is the device's response
with exactly the 2 leading dummy bytes discarded (hence `N` bytes long); a
register write issues a single write transaction of the register address byte
followed by the payload and then delays 20 microseconds (≥ 20 µs).  The
hypotheses mirror the transport's asserted buffer bounds (30 payload bytes for
reads, 31 for writes). -/
theorem claim_c3_transport :
    (∀ (bus : Bus) (reg len : Nat) (s : St), len ≤ 30 →
      (read_bytes bus reg len s).1.log =
        s.log ++ [.busRead ADDR_I2C_PRIM [reg] (len + 2)] ∧
      (read_bytes bus reg len s).2 =
        ((List.range (len + 2)).map (bus s.reads)).drop 2 ∧
      (read_bytes bus reg len s).2.length = len) ∧
    (∀ (reg : Nat) (data : List Nat) (s : St), data.length ≤ 31 →
      write_bytes reg data s =
        ⟨s.reads, s.log ++ [.busWrite ADDR_I2C_PRIM (reg :: data),
          .delayUs 20]⟩ ∧ 20 ≤ 20) := by
  constructor
  · intro bus reg len s _
    refine ⟨rfl, ?_, by simp [read_bytes]⟩
    rw [drop_two_range_map]
    rfl
  · intro reg data s _
    exact ⟨rfl, le_refl 20⟩

/-- Witness for C3: instantiate the read at 2 payload bytes on the bus that
answers position `j` of read `k` with byte `j`, and the write at a two-byte
payload. -/
theorem claim_c3_transport_witness :
    (2 ≤ 30 ∧
      ((read_bytes (fun _ j => j) 0x20 2 St.start).1.log =
        St.start.log ++ [.busRead ADDR_I2C_PRIM [0x20] (2 + 2)] ∧
      (read_bytes (fun _ j => j) 0x20 2 St.start).2 =
        ((List.range (2 + 2)).map ((fun _ j => j : Bus) St.start.reads)).drop 2 ∧
      (read_bytes (fun _ j => j) 0x20 2 St.start).2.length = 2)) ∧
    ([1, 2].length ≤ 31 ∧
      (write_bytes 0x35 [1, 2] St.start =
        ⟨St.start.reads, St.start.log ++
          [.busWrite ADDR_I2C_PRIM (0x35 :: [1, 2]), .delayUs 20]⟩ ∧ 20 ≤ 20)) :=
  ⟨⟨by decide, claim_c3_transport.1 (fun _ j => j) 0x20 2 St.start (by decide)⟩,
   ⟨by decide, claim_c3_transport.2 0x35 [1, 2] St.start (by decide)⟩⟩

/-- C6: for every non-empty output buffer, `read_fifo_bytes` returns
`Ok n` with `n = min (buffer length) (2 × reported fill level in words)`, and
reads exactly `n` bytes from `FIFO_DATA` (no data-register transaction at all
when `n = 0`), never attempting to read beyond availability.  The hypothesis
`n ≤ 30` mirrors the transport's asserted frame bound: the source streams the
`n` bytes through `read_bytes`, whose 32-byte scratch buffer panics for larger
payloads, so the clean-read path this theorem describes exists only within
that bound. -/
theorem claim_c6_fifo_read (bus : Bus) (outLen : Nat) (s : St) (h : 0 < outLen)
    (_hbound : min outLen
      ((bus s.reads 2 % 256 + 256 * (bus s.reads 3 % 256)) % 2048 * 2) ≤ 30) :
    (read_fifo_bytes bus outLen s).2 =
      .ok (min outLen ((bus s.reads 2 % 256 + 256 * (bus s.reads 3 % 256)) % 2048 * 2)) ∧
    (read_fifo_bytes bus outLen s).1.log =
      (if min outLen ((bus s.reads 2 % 256 + 256 * (bus s.reads 3 % 256)) % 2048 * 2) = 0 then
        s.log ++ [.busRead ADDR_I2C_PRIM [Reg.FifoFillLevel] 4]
      else
        s.log ++ [.busRead ADDR_I2C_PRIM [Reg.FifoFillLevel] 4,
          .busRead ADDR_I2C_PRIM [Reg.FifoData]
            (min outLen ((bus s.reads 2 % 256 + 256 * (bus s.reads 3 % 256)) % 2048 * 2) + 2)]) := by
  have hne : outLen ≠ 0 := Nat.pos_iff_ne_zero.mp h
  simp only [read_fifo_bytes, get_fifo_fill_level, read_bytes, hne, if_false,
    List.range_succ, List.range_zero, List.nil_append, List.cons_append,
    List.map_cons, List.map_nil, List.headD_cons, List.getD_cons_succ,
    List.getD_cons_zero, Nat.zero_add]
  split
  · simp_all
  · simp_all [List.append_assoc]

/-- Witness for C6: a 1024-byte request against `fifoTestBus`, which reports a
fill level of 10 words, returns exactly `min 1024 20 = 20` bytes — within the
30-byte transport frame bound. -/
theorem claim_c6_fifo_read_witness :
    0 < 1024 ∧
    min 1024 ((fifoTestBus St.start.reads 2 % 256 +
      256 * (fifoTestBus St.start.reads 3 % 256)) % 2048 * 2) ≤ 30 ∧
    ((read_fifo_bytes fifoTestBus 1024 St.start).2 =
      .ok (min 1024 ((fifoTestBus St.start.reads 2 % 256 +
        256 * (fifoTestBus St.start.reads 3 % 256)) % 2048 * 2)) ∧
    (read_fifo_bytes fifoTestBus 1024 St.start).1.log =
      (if min 1024 ((fifoTestBus St.start.reads 2 % 256 +
            256 * (fifoTestBus St.start.reads 3 % 256)) % 2048 * 2) = 0 then
        St.start.log ++ [.busRead ADDR_I2C_PRIM [Reg.FifoFillLevel] 4]
      else
        St.start.log ++ [.busRead ADDR_I2C_PRIM [Reg.FifoFillLevel] 4,
          .busRead ADDR_I2C_PRIM [Reg.FifoData]
            (min 1024 ((fifoTestBus St.start.reads 2 % 256 +
              256 * (fifoTestBus St.start.reads 3 % 256)) % 2048 * 2) + 2)])) :=
  ⟨by decide, by decide,
   claim_c6_fifo_read fifoTestBus 1024 St.start (by decide) (by decide)⟩

theorem read_bytes_one (bus : Bus) (reg : Nat) (s : St) :
    read_bytes bus reg 1 s =
      (⟨s.reads + 1, s.log ++ [.busRead ADDR_I2C_PRIM [reg] 3]⟩,
       [bus s.reads 2]) := by
  simp [read_bytes, List.range_succ]

theorem read_bytes_two (bus : Bus) (reg : Nat) (s : St) :
    read_bytes bus reg 2 s =
      (⟨s.reads + 1, s.log ++ [.busRead ADDR_I2C_PRIM [reg] 4]⟩,
       [bus s.reads 2, bus s.reads 3]) := by
  simp [read_bytes, List.range_succ]

theorem zeroBus_bit (k b : Nat) : (zeroBus k 2).testBit b = false := by
  simp [zeroBus]

theorem oobBus_bit0 (k : Nat) : (oobBus k 2).testBit 0 = true := by
  simp [oobBus]

theorem zeroBus_code (k : Nat) :
    FeatureIoError.tryFrom (zeroBus k 2 % 16) ≠ none ∧
    FeatureIoError.tryFrom (zeroBus k 2 % 16) ≠ some .activated := by
  constructor <;> simp [zeroBus, FeatureIoError.tryFrom]

theorem wait_feature_go_oob (bus : Bus) (tries fuel : Nat) (s : St)
    (hoob : (bus s.reads 2).testBit 0 = true) :
    wait_feature_go bus tries (fuel + 1) s =
      (⟨s.reads + 1,
        s.log ++ [.busRead ADDR_I2C_PRIM [Reg.FeatureDataStatus] 4]⟩,
       .error .data) := by
  simp only [wait_feature_go, read_bytes_two, List.headD_cons, hoob, if_true]

theorem wait_feature_data_ready_oob (bus : Bus) (s : St)
    (hoob : (bus s.reads 2).testBit 0 = true) :
    wait_feature_data_ready bus s =
      (⟨s.reads + 1,
        s.log ++ [.busRead ADDR_I2C_PRIM [Reg.FeatureDataStatus] 4]⟩,
       .error .data) := by
  rw [wait_feature_data_ready]
  exact wait_feature_go_oob bus 0 101 s hoob

theorem wait_for_go_stuck (bus : Bus) (sensor : Sensor)
    (hbus : ∀ k, (bus k 2).testBit sensor.drdyBit = false) :
    ∀ fuel retries s, retries + fuel = 22 → 0 < fuel →
    wait_for_go bus sensor retries fuel s =
      (⟨s.reads + fuel, s.log ++ pollLog Reg.Status 3 2 fuel⟩, .error .data) := by
  intro fuel
  induction fuel with
  | zero => intro retries s _ h0; exact absurd h0 (lt_irrefl 0)
  | succ f ih =>
    intro retries s hsum _
    have hread : (bus s.reads 2).testBit sensor.drdyBit = false := hbus s.reads
    simp only [wait_for_go, is_ready, read_bytes_one, List.headD_cons, hread,
      Bool.false_eq_true, if_false]
    cases f with
    | zero =>
      rw [if_pos (by omega : retries > 20)]
      simp only [pollLog]
    | succ f2 =>
      rw [if_neg (by omega : ¬ retries > 20),
        ih (retries + 1) _ (by omega) (Nat.succ_pos f2)]
      simp only [delay_ms, pollLog, Prod.mk.injEq, St.mk.injEq,
        List.append_assoc, List.cons_append, List.nil_append, and_true,
        true_and, and_self]
      omega

theorem wait_feature_go_stuck (bus : Bus)
    (hbus : ∀ k, (bus k 2).testBit 0 = false ∧ (bus k 2).testBit 1 = false) :
    ∀ fuel tries s, tries + fuel = 102 → 0 < fuel →
    wait_feature_go bus tries fuel s =
      (⟨s.reads + fuel, s.log ++ pollLog Reg.FeatureDataStatus 4 2 fuel⟩,
       .error .data) := by
  intro fuel
  induction fuel with
  | zero => intro tries s _ h0; exact absurd h0 (lt_irrefl 0)
  | succ f ih =>
    intro tries s hsum _
    have h0 : (bus s.reads 2).testBit 0 = false := (hbus s.reads).1
    have h1 : (bus s.reads 2).testBit 1 = false := (hbus s.reads).2
    simp only [wait_feature_go, read_bytes_two, List.headD_cons, h0, h1,
      Bool.false_eq_true, if_false]
    cases f with
    | zero =>
      rw [if_pos (by omega : tries > 100)]
      simp only [pollLog]
    | succ f2 =>
      rw [if_neg (by omega : ¬ tries > 100),
        ih (tries + 1) _ (by omega) (Nat.succ_pos f2)]
      simp only [delay_ms, pollLog, Prod.mk.injEq, St.mk.injEq,
        List.append_assoc, List.cons_append, List.nil_append, and_true,
        true_and, and_self]
      omega

theorem enable_engine_go_stuck (bus : Bus)
    (hbus : ∀ k, FeatureIoError.tryFrom (bus k 2 % 16) ≠ none ∧
      FeatureIoError.tryFrom (bus k 2 % 16) ≠ some .activated) :
    ∀ fuel tries s, tries + fuel = 11 → 0 < fuel →
    enable_engine_go bus tries fuel s =
      (⟨s.reads + fuel, s.log ++ enginePollLog fuel⟩, .error .init) := by
  intro fuel
  induction fuel with
  | zero => intro tries s _ h0; exact absurd h0 (lt_irrefl 0)
  | succ f ih =>
    intro tries s hsum _
    obtain ⟨hsome, hnact⟩ := hbus s.reads
    obtain ⟨st, hst⟩ := Option.ne_none_iff_exists'.mp hsome
    have hne : ¬ st = .activated := fun h => hnact (h ▸ hst)
    simp only [enable_engine_go, delay_us, read_bytes_two, List.headD_cons,
      List.append_assoc, List.cons_append, List.nil_append, hst, hne,
      if_false]
    cases f with
    | zero =>
      rw [if_pos (by omega : tries + 1 > 10)]
      simp only [enginePollLog]
    | succ f2 =>
      rw [if_neg (by omega : ¬ tries + 1 > 10),
        ih (tries + 1) _ (by omega) (Nat.succ_pos f2)]
      simp only [enginePollLog, Prod.mk.injEq, St.mk.injEq,
        List.append_assoc, List.cons_append, List.nil_append, and_true,
        true_and, and_self]
      omega

/-- C8: after writing the configuration (a single `ACC_CONF`/`GYR_CONF` write
with the 20 µs transport settle), `set_accel_conf`/`set_gyro_conf` polls the
`STATUS` data-ready bit of that sensor with a 2 ms delay per retry, the retry
counter bounded at 20 (`retries > 20` aborts, giving 22 status reads and 21
delays in all), and a bit that never asserts makes the operation fail with
`Error::Data`. -/
theorem claim_c8_set_conf_poll :
    (∀ (bus : Bus) (cfg : AccelConfig) (s : St),
      (∀ k, (bus k 2).testBit 7 = false) →
      set_accel_conf bus cfg s =
        (⟨s.reads + 22, s.log ++
          [.busWrite ADDR_I2C_PRIM (Reg.AccConf :: encodeAccelConfig cfg),
           .delayUs 20] ++ pollLog Reg.Status 3 2 22⟩, .error .data)) ∧
    (∀ (bus : Bus) (cfg : GyroConfig) (s : St),
      (∀ k, (bus k 2).testBit 6 = false) →
      set_gyro_conf bus cfg s =
        (⟨s.reads + 22, s.log ++
          [.busWrite ADDR_I2C_PRIM (Reg.GyrConf :: encodeGyroConfig cfg),
           .delayUs 20] ++ pollLog Reg.Status 3 2 22⟩, .error .data)) := by
  constructor
  · intro bus cfg s hbus
    have h := wait_for_go_stuck bus .accel hbus 22 0
      (write_bytes Reg.AccConf (encodeAccelConfig cfg) s) rfl (by omega)
    simpa [set_accel_conf, wait_for, write_bytes, List.append_assoc] using h
  · intro bus cfg s hbus
    have h := wait_for_go_stuck bus .gyro hbus 22 0
      (write_bytes Reg.GyrConf (encodeGyroConfig cfg) s) rfl (by omega)
    simpa [set_gyro_conf, wait_for, write_bytes, List.append_assoc] using h

/-- Witness for C8: on the all-zero bus (data-ready bits never assert) both
configuration writes fail with `Error::Data` after the full poll sequence. -/
theorem claim_c8_set_conf_poll_witness :
    ((∀ k, (zeroBus k 2).testBit 7 = false) ∧
      set_accel_conf zeroBus accelDefault St.start =
        (⟨St.start.reads + 22, St.start.log ++
          [.busWrite ADDR_I2C_PRIM (Reg.AccConf :: encodeAccelConfig accelDefault),
           .delayUs 20] ++ pollLog Reg.Status 3 2 22⟩, .error .data)) ∧
    ((∀ k, (zeroBus k 2).testBit 6 = false) ∧
      set_gyro_conf zeroBus gyroDefault St.start =
        (⟨St.start.reads + 22, St.start.log ++
          [.busWrite ADDR_I2C_PRIM (Reg.GyrConf :: encodeGyroConfig gyroDefault),
           .delayUs 20] ++ pollLog Reg.Status 3 2 22⟩, .error .data)) :=
  ⟨⟨fun k => zeroBus_bit k 7,
    claim_c8_set_conf_poll.1 zeroBus accelDefault St.start
      (fun k => zeroBus_bit k 7)⟩,
   ⟨fun k => zeroBus_bit k 6,
    claim_c8_set_conf_poll.2 zeroBus gyroDefault St.start
      (fun k => zeroBus_bit k 6)⟩⟩

/-- C2 (amended): a feature-memory write, or a feature-memory read of an
even-length buffer, on a bus whose feature-data status never reports ready and
never reports out-of-bounds, fails with `Error::Data` after exactly 102 status
reads (the loop admits `tries = 0, …, 101` because the guard is
`tries > 100`); and a status reporting a prior out-of-bounds access fails the
operation immediately with `Error::Data` after a single status read. -/
theorem claim_c2_feature_wait :
    (∀ (bus : Bus) (addr : Nat) (v : List Nat) (s : St),
      (∀ k, (bus k 2).testBit 0 = false ∧ (bus k 2).testBit 1 = false) →
      write_feature_bytes bus addr v s =
        (⟨s.reads + 102, s.log ++ pollLog Reg.FeatureDataStatus 4 2 102⟩,
         .error .data)) ∧
    (∀ (bus : Bus) (addr outLen : Nat) (s : St), outLen % 2 = 0 →
      (∀ k, (bus k 2).testBit 0 = false ∧ (bus k 2).testBit 1 = false) →
      read_feature_bytes bus addr outLen s =
        (⟨s.reads + 102, s.log ++ pollLog Reg.FeatureDataStatus 4 2 102⟩,
         .error .data)) ∧
    (∀ (bus : Bus) (addr : Nat) (v : List Nat) (s : St),
      (bus s.reads 2).testBit 0 = true →
      write_feature_bytes bus addr v s =
        (⟨s.reads + 1,
          s.log ++ [.busRead ADDR_I2C_PRIM [Reg.FeatureDataStatus] 4]⟩,
         .error .data)) ∧
    (∀ (bus : Bus) (addr outLen : Nat) (s : St), outLen % 2 = 0 →
      (bus s.reads 2).testBit 0 = true →
      read_feature_bytes bus addr outLen s =
        (⟨s.reads + 1,
          s.log ++ [.busRead ADDR_I2C_PRIM [Reg.FeatureDataStatus] 4]⟩,
         .error .data)) := by
  refine ⟨?_, ?_, ?_, ?_⟩
  · intro bus addr v s hbus
    rw [write_feature_bytes, wait_feature_data_ready,
      wait_feature_go_stuck bus hbus 102 0 s rfl (by omega)]
  · intro bus addr outLen s heven hbus
    rw [read_feature_bytes, if_neg (by omega : ¬ outLen % 2 ≠ 0),
      wait_feature_data_ready,
      wait_feature_go_stuck bus hbus 102 0 s rfl (by omega)]
  · intro bus addr v s hoob
    rw [write_feature_bytes, wait_feature_data_ready_oob bus s hoob]
  · intro bus addr outLen s heven hoob
    rw [read_feature_bytes, if_neg (by omega : ¬ outLen % 2 ≠ 0),
      wait_feature_data_ready_oob bus s hoob]

/-- Witness for C2: the all-zero bus (never ready, no out-of-bounds flag)
drives both feature-memory accesses through all 102 polls into `Error::Data`,
and the bus with the out-of-bounds bit set fails them after one poll. -/
theorem claim_c2_feature_wait_witness :
    ((∀ k, (zeroBus k 2).testBit 0 = false ∧ (zeroBus k 2).testBit 1 = false) ∧
      write_feature_bytes zeroBus 0x05 [0, 0] St.start =
        (⟨St.start.reads + 102,
          St.start.log ++ pollLog Reg.FeatureDataStatus 4 2 102⟩,
         .error .data)) ∧
    ((2 % 2 = 0) ∧
      read_feature_bytes zeroBus 0x05 2 St.start =
        (⟨St.start.reads + 102,
          St.start.log ++ pollLog Reg.FeatureDataStatus 4 2 102⟩,
         .error .data)) ∧
    (((oobBus St.start.reads 2).testBit 0 = true) ∧
      write_feature_bytes oobBus 0x05 [0, 0] St.start =
        (⟨St.start.reads + 1,
          St.start.log ++ [.busRead ADDR_I2C_PRIM [Reg.FeatureDataStatus] 4]⟩,
         .error .data)) ∧
    ((2 % 2 = 0) ∧
      read_feature_bytes oobBus 0x05 2 St.start =
        (⟨St.start.reads + 1,
          St.start.log ++ [.busRead ADDR_I2C_PRIM [Reg.FeatureDataStatus] 4]⟩,
         .error .data)) :=
  ⟨⟨fun k => ⟨zeroBus_bit k 0, zeroBus_bit k 1⟩,
    claim_c2_feature_wait.1 zeroBus 0x05 [0, 0] St.start
      (fun k => ⟨zeroBus_bit k 0, zeroBus_bit k 1⟩)⟩,
   ⟨rfl, (claim_c2_feature_wait.2.1) zeroBus 0x05 2 St.start rfl
      (fun k => ⟨zeroBus_bit k 0, zeroBus_bit k 1⟩)⟩,
   ⟨oobBus_bit0 St.start.reads,
    (claim_c2_feature_wait.2.2.1) oobBus 0x05 [0, 0] St.start
      (oobBus_bit0 St.start.reads)⟩,
   ⟨rfl, (claim_c2_feature_wait.2.2.2) oobBus 0x05 2 St.start rfl
      (oobBus_bit0 St.start.reads)⟩⟩

/-- Counterexample for C2 as stated: on a bus whose feature-data status stays
zero forever (never ready, no out-of-bounds error), a feature write fails with
a data error but only after 102 status-register reads — not the claimed
"exactly 100". -/
theorem claim_c2_counterexample :
    (write_feature_bytes zeroBus 0x05 [0, 0] St.start).2 = .error .data ∧
    (write_feature_bytes zeroBus 0x05 [0, 0] St.start).1.reads = 102 ∧
    (write_feature_bytes zeroBus 0x05 [0, 0] St.start).1.reads ≠ 100 := by
  have h := wait_feature_go_stuck zeroBus
    (fun k => ⟨zeroBus_bit k 0, zeroBus_bit k 1⟩) 102 0 St.start rfl (by omega)
  have h2 : write_feature_bytes zeroBus 0x05 [0, 0] St.start =
      (⟨St.start.reads + 102,
        St.start.log ++ pollLog Reg.FeatureDataStatus 4 2 102⟩, .error .data) := by
    rw [write_feature_bytes, wait_feature_data_ready, h]
  rw [h2]
  exact ⟨rfl, rfl, by decide⟩

/-- C4 (amended): when every `FEATURE_IO1` poll decodes to a valid
`error_status` code other than `Activated`, `enable_feature_engine` fails with
`Error::Init` — not a data error — after exactly 11 polls of the status
register at 100 ms intervals (the loop admits `tries = 1, …, 11` because the
guard `tries > 10` runs after the increment). -/
theorem claim_c4_engine_timeout (bus : Bus) (s : St)
    (hbus : ∀ k, FeatureIoError.tryFrom (bus k 2 % 16) ≠ none ∧
      FeatureIoError.tryFrom (bus k 2 % 16) ≠ some .activated) :
    enable_feature_engine bus s =
      (⟨s.reads + 11, s.log ++
        [.busWrite ADDR_I2C_PRIM [Reg.FeatureIo2, 0x2c, 0x01], .delayUs 20,
         .busWrite ADDR_I2C_PRIM [Reg.FeatureIoStatus, 1, 0], .delayUs 20,
         .busWrite ADDR_I2C_PRIM [Reg.FeatureCtrl, 1, 0], .delayUs 20] ++
        enginePollLog 11⟩, .error .init) := by
  have h := enable_engine_go_stuck bus hbus 11 0
    (write_bytes Reg.FeatureCtrl [1, 0]
      (write_bytes Reg.FeatureIoStatus [1, 0]
        (write_bytes Reg.FeatureIo2 [0x2c, 0x01] s))) rfl (by omega)
  simpa [enable_feature_engine, write_bytes, List.append_assoc] using h

/-- Witness for C4 (amended): the all-zero bus decodes every poll to the valid
code `Inactive`, so activation times out into `Error::Init` after 11 polls. -/
theorem claim_c4_engine_timeout_witness :
    (∀ k, FeatureIoError.tryFrom (zeroBus k 2 % 16) ≠ none ∧
      FeatureIoError.tryFrom (zeroBus k 2 % 16) ≠ some .activated) ∧
    enable_feature_engine zeroBus St.start =
      (⟨St.start.reads + 11, St.start.log ++
        [.busWrite ADDR_I2C_PRIM [Reg.FeatureIo2, 0x2c, 0x01], .delayUs 20,
         .busWrite ADDR_I2C_PRIM [Reg.FeatureIoStatus, 1, 0], .delayUs 20,
         .busWrite ADDR_I2C_PRIM [Reg.FeatureCtrl, 1, 0], .delayUs 20] ++
        enginePollLog 11⟩, .error .init) :=
  ⟨zeroBus_code, claim_c4_engine_timeout zeroBus St.start zeroBus_code⟩

/-- Counterexample for C4 as stated: on the all-zero bus the engine never
reports `Activated` and the run does fail with `Error::Init`, but only after
11 status polls, not "at most 10"; moreover, on a bus whose `error_status`
nibble always reads the unmapped code 0x2 — which also never reports
`Activated` — the run fails with `Error::Data` instead of `Error::Init`. -/
theorem claim_c4_counterexample :
    ((enable_feature_engine zeroBus St.start).2 = .error .init ∧
     (enable_feature_engine zeroBus St.start).1.reads = 11 ∧
     ¬ (enable_feature_engine zeroBus St.start).1.reads ≤ 10) ∧
    (enable_feature_engine badCodeBus St.start).2 = .error .data := by
  exact ⟨⟨rfl, rfl, by decide⟩, rfl⟩

theorem f32round_eq (q : ℚ) (e : ℤ) (hq : q ≠ 0)
    (h1 : (2 : ℚ) ^ (e + 23) ≤ |q|) (h2 : |q| < 2 ^ (e + 24)) :
    f32round q = round (q / 2 ^ e) * 2 ^ e := by
  have habs : 0 < |q| := abs_pos.mpr hq
  have hlog : Int.log 2 |q| = e + 23 := by
    have hle : e + 23 ≤ Int.log 2 |q| := by
      rw [← Int.zpow_le_iff_le_log one_lt_two habs]
      exact_mod_cast h1
    have hlt : Int.log 2 |q| < e + 24 := by
      rw [← Int.lt_zpow_iff_log_lt one_lt_two habs]
      exact_mod_cast h2
    omega
  rw [f32round, if_neg hq, qExp, hlog, show e + 23 - 23 = e from by ring]

theorem mult_g2 : AccelRange.multiplier .g2 = 1 / 16384 := by
  rw [AccelRange.multiplier,
    f32round_eq (1 / 16384) (-37) (by norm_num)
      (by rw [abs_of_pos (by norm_num)]; norm_num)
      (by rw [abs_of_pos (by norm_num)]; norm_num),
    round_eq]
  norm_num

theorem mult_g16 : AccelRange.multiplier .g16 = 1 / 2048 := by
  rw [AccelRange.multiplier,
    f32round_eq (1 / 2048) (-34) (by norm_num)
      (by rw [abs_of_pos (by norm_num)]; norm_num)
      (by rw [abs_of_pos (by norm_num)]; norm_num),
    round_eq]
  norm_num

theorem f32round_one : f32round 1 = 1 := by
  rw [f32round_eq 1 (-23) (by norm_num)
      (by rw [abs_of_pos (by norm_num)]; norm_num)
      (by rw [abs_of_pos (by norm_num)]; norm_num),
    round_eq]
  norm_num

theorem mult_dps2000 : GyroRange.multiplier .dps2000 = 16384500 / 2 ^ 28 := by
  rw [GyroRange.multiplier, GyroRange.dps,
    f32round_eq (2000 / 32767) (-28) (by norm_num)
      (by rw [abs_of_pos (by norm_num)]; norm_num)
      (by rw [abs_of_pos (by norm_num)]; norm_num),
    round_eq]
  norm_num

/-- C9: scaled readings are the raw count times the range's multiplier (that
is how `accelScaled`/`gyroScaled` are defined from `get_accel_data` /
`get_gyro_data`), and at accelerometer range ±2g a raw reading of 16384 scales
to exactly 1 g, at ±16g a raw 2048 scales to exactly 1 g, while at gyro range
±2000 °/s the raw full-scale reading 32767 scales to 2000 °/s up to
floating-point tolerance (in binary32 the rounding error cancels exactly). -/
theorem claim_c9_scaling :
    accelScaled .g2 16384 = 1 ∧ accelScaled .g16 2048 = 1 ∧
    |gyroScaled .dps2000 32767 - 2000| < 1 / 1024 := by
  refine ⟨?_, ?_, ?_⟩
  · rw [accelScaled, mult_g2, show ((16384 : ℤ) : ℚ) * (1 / 16384) = 1 by
      norm_num]
    exact f32round_one
  · rw [accelScaled, mult_g16, show ((2048 : ℤ) : ℚ) * (1 / 2048) = 1 by
      norm_num]
    exact f32round_one
  · rw [gyroScaled, mult_dps2000,
      f32round_eq (((32767 : ℤ) : ℚ) * (16384500 / 2 ^ 28)) (-13)
        (by norm_num)
        (by rw [abs_of_pos (by norm_num)]; norm_num)
        (by rw [abs_of_pos (by norm_num)]; norm_num),
      round_eq]
    norm_num

end Bmi323
